import Mathlib

set_option maxRecDepth 8000

/-!
Verification development for the FreightChat Pro shipping-agent server.

This file gives a shallow embedding, in Lean 4, of the core of the
repository:

* the conversational workflow node `shippingAgentNode` (src/unnamed/part_003),
* the pure quote engine `generateShippingQuote` with its helpers
  `determineRouteType`, `calculateBaseRate`, `getServiceMultiplier` and
  `calculateAdditionalCosts` (src/unnamed/part_003),
* the monotonic field merge applied to extraction results,
* the pre-classification stage prefix of the two BullMQ workers
  (src/test-redis.js), and
* the queue retry policy configured for those workers.

Modelling conventions:

* JavaScript strings are Lean `String`s; absent-or-null object fields are
  `Option String` with `none` for absent/null.  JavaScript truthiness of a
  string field (`undefined`, `null` and `""` are falsy) is `truthyStr`.
* JavaScript numbers appearing in the quote computation are modelled as
  exact rationals; `NaN` (which arises when `parseInt` is applied to an
  empty string after comma removal) is modelled by `none` in `Option`
  types, with NaN-propagating arithmetic.  The `toFixed(2)` string
  rendering of a rate is abstracted to the exact rational: any two
  distinct carrier rates differ by at least 7.2, far above the cent
  rounding granularity, so ordering and minimum facts are unaffected.
* Timestamps (`Date.now()`, `new Date().toISOString()`) are modelled as a
  natural-number millisecond clock passed in explicitly as `now`.
* The two external language-model calls made by the node are modelled as
  explicit oracle arguments: `gen : Except Unit String` for the
  conversational generation call (`Except.error` = the call threw) and
  `ext : ExtractOutcome` for the extraction call, where `ExtractOutcome.fail`
  covers a thrown call, a response without braces, and an unparseable JSON
  body - all three paths in the source leave the stored data untouched.
  The prompt strings fed to those calls do not influence control flow and
  are not reconstructed.
-/

/-! ### Generic string helpers mirroring the JavaScript primitives used -/

/-- Lowercasing, as `String.prototype.toLowerCase` on the ASCII strings the
source manipulates. -/
def lowerStr (s : String) : String := ⟨s.data.map Char.toLower⟩

/-- Does the first list start with the second? -/
def listStartsWith : List Char → List Char → Bool
  | _, [] => true
  | [], _ :: _ => false
  | h :: ht, n :: nt => h == n && listStartsWith ht nt

/-- Helper for `strContains`: does `needle` occur in the given list? -/
def strContainsAux (needle : List Char) : List Char → Bool
  | [] => needle.isEmpty
  | c :: t => listStartsWith (c :: t) needle || strContainsAux needle t

/-- Substring test, as `String.prototype.includes`. -/
def strContains (hay needle : String) : Bool := strContainsAux needle.data hay.data

/-- JavaScript truthiness of a nullable string field: `undefined`, `null`
and the empty string are falsy. -/
def truthyStr : Option String → Bool
  | none => false
  | some s => if s = "" then false else true

/-- The JavaScript idiom `a || d` on a nullable string `a` with string
default `d`. -/
def truthyOr (a : Option String) (d : String) : String :=
  match a with
  | some s => if s = "" then d else s
  | none => d

/-- Two-digit zero-padded rendering of a number below 100. -/
def pad2 (n : ℕ) : String := if n < 10 then "0" ++ toString n else toString n

/-- Rendering of a (possibly NaN) rate, as `Number.prototype.toFixed(2)`
on the non-negative values produced by the quote engine. -/
def toFixed2 : Option ℚ → String
  | none => "NaN"
  | some q =>
    let c : ℤ := ⌊q * 100 + 1 / 2⌋
    toString (c / 100) ++ "." ++ pad2 (c % 100).toNat

/-- Helper for `withCommas`: insert a comma before every third digit of a
reversed digit list. -/
def commaGroupAux : ℕ → List Char → List Char
  | _, [] => []
  | i, c :: t =>
    if i ≠ 0 && i % 3 = 0 then ',' :: c :: commaGroupAux (i + 1) t
    else c :: commaGroupAux (i + 1) t

/-- Thousands-separated rendering of a natural number, as
`Number.prototype.toLocaleString()` in an en-US locale. -/
def withCommas (n : ℕ) : String :=
  ⟨(commaGroupAux 0 (toString n).data.reverse).reverse⟩

/-! ### Numeric-token extraction

`generateShippingQuote` parses a weight with `/(\d+)\s*kg/i` and a declared
value with `/[\d,]+/`.  Both regexes are embedded as direct scanners:

* for the weight, the captured group of the leftmost match is always a
  maximal digit run followed (after maximal whitespace) by `kg`
  case-insensitively, because backtracking inside the digit or whitespace
  runs can never produce a `k` at the required position;
* for the declared value the leftmost maximal run of digits and commas is
  the match. -/

/-- Decimal value of a digit list, as `parseInt` on a digit string. -/
def parseDigits (l : List Char) : ℕ := l.foldl (fun n c => n * 10 + (c.toNat - 48)) 0

/-- `parseInt` on a possibly-empty digit string: the empty string gives NaN,
modelled by `none`. -/
def parseDigitsOpt (l : List Char) : Option ℕ :=
  match l with
  | [] => none
  | _ => some (parseDigits l)

/-- Does the list start with `kg`, case-insensitively? -/
def kgCheck : List Char → Bool
  | k :: g :: _ => k.toLower == 'k' && g.toLower == 'g'
  | _ => false

/-- Scanner for `/(\d+)\s*kg/i`: the value of the captured digit group of
the leftmost match, if any.  The fuel argument is the length of the list. -/
def scanWeightAux : ℕ → List Char → Option ℕ
  | 0, _ => none
  | _ + 1, [] => none
  | fuel + 1, c :: t =>
    if c.isDigit then
      let run := List.takeWhile Char.isDigit (c :: t)
      let rest := List.dropWhile Char.isDigit (c :: t)
      if kgCheck (List.dropWhile Char.isWhitespace rest) then some (parseDigits run)
      else scanWeightAux fuel rest
    else scanWeightAux fuel t

/-- The weight token of a string, per `/(\d+)\s*kg/i`. -/
def scanWeight (s : String) : Option ℕ := scanWeightAux s.data.length s.data

/-- A character matched by `[\d,]`. -/
def isValChar (c : Char) : Bool := c.isDigit || c == ','

/-- Scanner for `/[\d,]+/`: the leftmost maximal run of digits and commas. -/
def scanValueAux : ℕ → List Char → Option (List Char)
  | 0, _ => none
  | _ + 1, [] => none
  | fuel + 1, c :: t =>
    if isValChar c then some (List.takeWhile isValChar (c :: t))
    else scanValueAux fuel t

/-- The declared-value token of a string, per `/[\d,]+/`. -/
def scanValue (s : String) : Option (List Char) := scanValueAux s.data.length s.data

/-! ### The shipment data model -/

/-- The named free-text fields of `shipmentData` collected by the agent,
as listed in the extraction prompt of `shippingAgentNode`. -/
inductive ShipField
  | origin | destination | cargo | weight | serviceLevel
  | specialRequirements | declaredValue | contactName | contactEmail | contactPhone
deriving DecidableEq, Repr

/-- An entry of `shipmentData.invoices`, appended by the invoice-upload
endpoint. -/
structure Invoice where
  invoiceId : String
  filename : String
  uploadedAt : ℕ
  processed : Bool
deriving DecidableEq, Repr

/-- The `shipmentData` object of a session: the named free-text fields
plus the invoice list. -/
structure ShipmentData where
  fields : ShipField → Option String
  invoices : List Invoice

/-! ### The quote engine (`generateShippingQuote` and helpers) -/

/-- The country keyword list used by `determineRouteType`. -/
def countries : List String :=
  ["usa", "us", "united states", "uk", "united kingdom", "india", "china",
   "japan", "germany", "france", "canada", "australia", "brazil", "mexico"]

/-- Route classification from the origin/destination strings, as
`determineRouteType` in the source: `domestic` when either endpoint is
falsy, `international` when both match distinct country keywords or either
mentions `asia`/`europe`, `domestic` otherwise. -/
def determineRouteType (origin destination : Option String) : String :=
  if !truthyStr origin || !truthyStr destination then "domestic"
  else
    let originLower := lowerStr (truthyOr origin "")
    let destLower := lowerStr (truthyOr destination "")
    let originCountry := countries.find? (fun c => strContains originLower c)
    let destCountry := countries.find? (fun c => strContains destLower c)
    let intl := match originCountry, destCountry with
      | some oc, some dc => oc != dc
      | _, _ => false
    if intl then "international"
    else if strContains originLower "asia" || strContains destLower "asia" ||
        strContains originLower "europe" || strContains destLower "europe" then
      "international"
    else "domestic"

/-- The route base-rate table of `calculateBaseRate`; an unknown route type
falls back to `domestic` (`routes[routeType] || routes.domestic`). -/
def routesTable (routeType : String) : ℕ :=
  if routeType = "domestic" then 120
  else if routeType = "regional" then 280
  else if routeType = "international" then 480
  else 120

/-- `calculateBaseRate`: base route rate plus `Math.ceil(weight/10)*18`
plus `Math.ceil(value/1000)*5`.  Over naturals `Math.ceil(w/10)` is
`(w+9)/10`.  A NaN declared value (`none`) propagates to a NaN base rate. -/
def calculateBaseRate (routeType : String) (weight : ℕ) (value : Option ℕ) : Option ℕ :=
  value.map (fun v => routesTable routeType + ((weight + 9) / 10) * 18 + ((v + 999) / 1000) * 5)

/-- The service-level entry of `getServiceMultiplier`: rate multiplier and
the two endpoints of the transit-day range (the source stores the range as
the string `min-max` and splits it; the split is pre-applied here). -/
structure ServiceInfo where
  multiplier : ℚ
  daysMin : ℕ
  daysMax : ℕ
deriving DecidableEq, Repr

/-- `getServiceMultiplier`: Express ×2.5 (1-3 days), Standard ×1.0
(4-7 days), Economy ×0.75 (8-14 days); anything else defaults to
Standard. -/
def getServiceMultiplier (serviceLevel : Option String) : ServiceInfo :=
  match serviceLevel with
  | some "Express" => ⟨5 / 2, 1, 3⟩
  | some "Standard" => ⟨1, 4, 7⟩
  | some "Economy" => ⟨3 / 4, 8, 14⟩
  | _ => ⟨1, 4, 7⟩

/-- NaN-propagating addition on JavaScript numbers. -/
def jsAdd : Option ℚ → Option ℚ → Option ℚ
  | some a, some b => some (a + b)
  | _, _ => none

/-- The insurance surcharge `Math.max(60, value * 0.008)`; `Math.max` of a
NaN value is NaN. -/
def insuranceCost (value : Option ℕ) : Option ℚ :=
  match value with
  | some v => some (max 60 ((v : ℚ) * (8 / 1000)))
  | none => none

/-- One `cost += surcharge` step of `calculateAdditionalCosts`, guarded by
its keyword condition. -/
def addCost (cond : Bool) (cur surcharge : Option ℚ) : Option ℚ :=
  if cond then jsAdd cur surcharge else cur

/-- `calculateAdditionalCosts`: keyword surcharges scanned from the
lowercased requirements text, accumulated in source order; a falsy
requirements value contributes 0. -/
def calculateAdditionalCosts (requirements : Option String) (value : Option ℕ) : Option ℚ :=
  match requirements with
  | none => some 0
  | some s =>
    if s = "" then some 0
    else
      let r := lowerStr s
      addCost (strContains r "express" || strContains r "urgent")
        (addCost (strContains r "customs" || strContains r "clearance")
          (addCost (strContains r "temperature" || strContains r "refrigerated")
            (addCost (strContains r "hazardous" || strContains r "dangerous")
              (addCost (strContains r "fragile" || strContains r "handle with care")
                (addCost (strContains r "insurance") (some 0) (insuranceCost value))
                (some 35))
              (some 150))
            (some 95))
          (some 55))
        (some 75)

/-- The free-text source of the weight token: `weight || cargo || ''`. -/
def quoteWeightText (sd : ShipmentData) : String :=
  truthyOr (sd.fields .weight) (truthyOr (sd.fields .cargo) "")

/-- The parsed weight: captured digits of the weight token, default 50. -/
def quoteWeight (sd : ShipmentData) : ℕ := (scanWeight (quoteWeightText sd)).getD 50

/-- The free-text source of the declared-value token: `declaredValue || ''`. -/
def quoteValueText (sd : ShipmentData) : String := truthyOr (sd.fields .declaredValue) ""

/-- The parsed declared value: `parseInt` of the token with commas removed,
default 1000 when there is no token.  A token consisting only of commas
parses to NaN (`none`). -/
def quoteValue (sd : ShipmentData) : Option ℕ :=
  match scanValue (quoteValueText sd) with
  | none => some 1000
  | some run => parseDigitsOpt (run.filter Char.isDigit)

/-- The route type computed for a shipment. -/
def quoteRouteType (sd : ShipmentData) : String :=
  determineRouteType (sd.fields .origin) (sd.fields .destination)

/-- The base rate computed for a shipment. -/
def quoteBaseRate (sd : ShipmentData) : Option ℕ :=
  calculateBaseRate (quoteRouteType sd) (quoteWeight sd) (quoteValue sd)

/-- The service-level entry used for a shipment. -/
def quoteService (sd : ShipmentData) : ServiceInfo :=
  getServiceMultiplier (sd.fields .serviceLevel)

/-- The additional keyword surcharge computed for a shipment. -/
def quoteAdditional (sd : ShipmentData) : Option ℚ :=
  calculateAdditionalCosts (sd.fields .specialRequirements) (quoteValue sd)

/-- The rate of the carrier at a given index:
`baseRate * multiplier * (0.88 + 0.08 * index) + additionalCost`, NaN
propagating. -/
def offerRate (sd : ShipmentData) (i : ℕ) : Option ℚ :=
  match quoteBaseRate sd, quoteAdditional sd with
  | some b, some a => some ((b : ℚ) * (quoteService sd).multiplier * ((88 + 8 * (i : ℚ)) / 100) + a)
  | _, _ => none

/-- The static carrier data of the carrier table in the source.  The
reliability number is carried as its decimal rendering, which is all the
source uses it for (`carrier.reliability + '%'`). -/
structure CarrierInfo where
  carrierId : String
  name : String
  reputation : ℚ
  reliabilityStr : String
deriving DecidableEq, Repr

/-- The first carrier of the table. -/
def dhlInfo : CarrierInfo := ⟨"dhl_express_001", "DHL Express Worldwide", 47 / 5, "98.7"⟩

/-- The second carrier of the table. -/
def fedexInfo : CarrierInfo := ⟨"fedex_intl_002", "FedEx International Premium", 46 / 5, "98.2"⟩

/-- The third carrier of the table. -/
def upsInfo : CarrierInfo := ⟨"ups_worldwide_003", "UPS Worldwide Express", 9, "97.8"⟩

/-- The fourth carrier of the table (beyond the `slice(0, 3)` cut). -/
def maerskInfo : CarrierInfo := ⟨"maersk_004", "Maersk Line Freight", 89 / 10, "97.5"⟩

/-- The fifth carrier of the table (beyond the `slice(0, 3)` cut). -/
def dbSchenkerInfo : CarrierInfo := ⟨"db_schenker_005", "DB Schenker Global", 44 / 5, "97.2"⟩

/-- The fixed ordered carrier table. -/
def carriers : List CarrierInfo :=
  [dhlInfo, fedexInfo, upsInfo, maerskInfo, dbSchenkerInfo]

/-- A carrier offer of a quote.  `rate` is the exact rational behind the
source's `toFixed(2)` string, with `none` for NaN; `minDays`/`maxDays` are
the transit-range endpoints embedded in `transitTime`; `estimatedDelivery`
is the epoch-millisecond instant behind the ISO string. -/
structure CarrierOffer where
  carrierId : String
  name : String
  service : String
  rate : Option ℚ
  minDays : ℕ
  maxDays : ℕ
  transitTime : String
  reputation : ℚ
  reliability : String
  estimatedDelivery : ℕ
  currency : String
deriving DecidableEq, Repr

/-- The offer built for carrier `c` at index `i`, as the arrow body of
`carriers.slice(0, 3).map` in the source. -/
def mkOffer (sd : ShipmentData) (now : ℕ) (i : ℕ) (c : CarrierInfo) : CarrierOffer :=
  let minDays := (quoteService sd).daysMin + i
  let maxDays := (quoteService sd).daysMax + i
  { carrierId := c.carrierId
    name := c.name
    service := truthyOr (sd.fields .serviceLevel) "Standard"
    rate := offerRate sd i
    minDays := minDays
    maxDays := maxDays
    transitTime := toString minDays ++ "-" ++ toString maxDays ++ " business days"
    reputation := c.reputation
    reliability := c.reliabilityStr ++ "%"
    estimatedDelivery := now + (minDays + 1) * 86400000
    currency := "USD" }

/-- The pre-sort offer list `carriers.slice(0, 3).map((carrier, index) => ...)`. -/
def quoteOffers (sd : ShipmentData) (now : ℕ) : List CarrierOffer :=
  ((carriers.take 3).enum).map (fun p => mkOffer sd now p.1 p.2)

/-- The sort comparator `(a, b) => parseFloat(a.rate) - parseFloat(b.rate)`.
Per the ECMAScript `SortCompare` algorithm a NaN comparator result is
treated as `+0`, so the NaN cases map to 0 here. -/
def jsSortCompare (a b : CarrierOffer) : ℚ :=
  match a.rate, b.rate with
  | some x, some y => x - y
  | _, _ => 0

/-- The (stable) by-rate sort applied to the offers. -/
def sortOffers (l : List CarrierOffer) : List CarrierOffer :=
  List.insertionSort (fun a b => jsSortCompare a b ≤ 0) l

/-- The `shipmentDetails` summary block of a quote result. -/
structure ShipmentDetails where
  weight : String
  declaredValue : String
  route : String
  serviceLevel : String
  cargo : String
deriving DecidableEq, Repr

/-- Rendering of the parsed declared value: `'$' + value.toLocaleString()`. -/
def displayValue : Option ℕ → String
  | none => "NaN"
  | some n => withCommas n

/-- The result object of `generateShippingQuote`. -/
structure QuoteResult where
  quotes : List CarrierOffer
  recommendedQuote : Option CarrierOffer
  totalEstimate : Option ℚ
  currency : String
  validUntil : ℕ
  shipmentDetails : ShipmentDetails
deriving DecidableEq, Repr

/-- `generateShippingQuote`: parse weight and declared value, classify the
route, build the three carrier offers, sort ascending by rate, and package
the result.  `recommendedQuote` and `totalEstimate` read `quotes[0]` of the
sorted list. -/
def generateShippingQuote (sd : ShipmentData) (now : ℕ) : QuoteResult :=
  let sorted := sortOffers (quoteOffers sd now)
  { quotes := sorted
    recommendedQuote := sorted.head?
    totalEstimate := sorted.head?.bind (fun o => o.rate)
    currency := "USD"
    validUntil := now + 48 * 60 * 60 * 1000
    shipmentDetails :=
      { weight := toString (quoteWeight sd) ++ "kg"
        declaredValue := "$" ++ displayValue (quoteValue sd)
        route := truthyOr (sd.fields .origin) "Origin" ++ " → " ++
          truthyOr (sd.fields .destination) "Destination"
        serviceLevel := truthyOr (sd.fields .serviceLevel) "Standard"
        cargo := truthyOr (sd.fields .cargo) "General cargo" } }

/-! ### The session state and the conversation turn function -/

/-- A message role. -/
inductive Role
  | user | assistant | system
deriving DecidableEq, Repr

/-- A stored conversation message; `timestamp` is the epoch-millisecond
instant behind the ISO string. -/
structure Message where
  role : Role
  content : String
  timestamp : ℕ
deriving DecidableEq, Repr

/-- The checkpointed session state, per `ShippingStateSchema` in the
source. -/
structure AgentState where
  messages : List Message
  userId : Option String
  threadId : Option String
  shipmentData : ShipmentData
  currentPhase : String
  completed : Bool
  quote : Option QuoteResult
  output : Option String
  nextAction : Option String

/-- The outcome of the extraction call: `fail` covers a thrown call, a
response with no `{...}` block, and unparseable JSON - in the source all
three leave `extractedData` at the copy of the stored data; `parsed` is a
successfully parsed field-update record (`none` = field absent or null). -/
inductive ExtractOutcome
  | fail
  | parsed (delta : ShipField → Option String)

/-- Merge of one extracted field into the stored one: a present, non-null,
non-empty value overwrites; anything else leaves the stored value. -/
def mergeField (cur delta : Option String) : Option String :=
  match delta with
  | some s => if s = "" then cur else some s
  | none => cur

/-- The field-merge loop `Object.keys(parsed).forEach(...)` of the node. -/
def mergeFields (cur delta : ShipField → Option String) : ShipField → Option String :=
  fun k => mergeField (cur k) (delta k)

/-- `extractedData` after the extraction attempt: on failure the stored
data unchanged, on success the merged fields (invoices are not part of the
extraction record). -/
def mergeExtraction (sd : ShipmentData) (ext : ExtractOutcome) : ShipmentData :=
  match ext with
  | .fail => sd
  | .parsed delta => { sd with fields := mergeFields sd.fields delta }

/-- The fixed greeting text returned on an empty message log. -/
def greetingContent : String :=
  "Hello! I'm your AI shipping agent. I'll help you get the best freight quotes and manage your shipment.\n\nTo start, could you tell me:\n1. Where are you shipping from?\n2. Where are you shipping to?\n\n(Example: From Mumbai, India to New York, USA)\n\nYou can also upload invoices or shipping documents at any time during our conversation."

/-- The generic apology appended when the generation call throws. -/
def apologyContent : String :=
  "I apologize, I encountered an error processing your request. Could you please try rephrasing that?"

/-- Removal of the sentinel from the display text:
`responseText.replace(/^READY_FOR_QUOTE\s*/i, '').trim()`.  The `^`-anchored
case-insensitive prefix is removed together with following whitespace when
present, and the result is trimmed either way. -/
def stripReadyMarker (s : String) : String :=
  if (lowerStr s).startsWith "ready_for_quote" then
    ((s.drop 15).dropWhile Char.isWhitespace).trim
  else s.trim

/-- `determinePhase`, recomputing the phase from field completeness.  The
source's first line reads `data.quote`, a key the shipment-data object
never has, so that branch is dead and omitted. -/
def determinePhase (d : ShipmentData) : String :=
  if truthyStr (d.fields .origin) && truthyStr (d.fields .destination) &&
      truthyStr (d.fields .cargo) && truthyStr (d.fields .weight) then "ready_for_quote"
  else if truthyStr (d.fields .cargo) && truthyStr (d.fields .weight) then "service_selection"
  else if truthyStr (d.fields .origin) && truthyStr (d.fields .destination) then "cargo_collection"
  else if truthyStr (d.fields .origin) || truthyStr (d.fields .destination) then "route_collection"
  else "route_collection"

/-- The quote message template appended when a quote is generated.  The
rates are rendered through `toFixed2`; the fallback for a quote list with
fewer than three offers is dead code (the carrier table always yields
three). -/
def renderQuoteMessage (assistantResponse : String) (q : QuoteResult) (ed : ShipmentData)
    (priorInvoices : List Invoice) : String :=
  match q.quotes with
  | q1 :: q2 :: q3 :: _ =>
    let line := "━━━━━━━━━━━━━━━━━━━━━━━━━━━━━━━━"
    assistantResponse ++ "\n\n" ++ line ++ "\nSHIPPING QUOTES\n" ++ line ++
    "\n\n**Top 3 Recommended Carriers:**\n\n1. **" ++ q1.name ++ "**\n   Rate: $" ++
    toFixed2 q1.rate ++ "\n   Transit: " ++ q1.transitTime ++ "\n   Reliability: " ++
    q1.reliability ++ "\n\n2. **" ++ q2.name ++ "**\n   Rate: $" ++ toFixed2 q2.rate ++
    "\n   Transit: " ++ q2.transitTime ++ "\n   Reliability: " ++ q2.reliability ++
    "\n\n3. **" ++ q3.name ++ "**\n   Rate: $" ++ toFixed2 q3.rate ++ "\n   Transit: " ++
    q3.transitTime ++ "\n   Reliability: " ++ q3.reliability ++ "\n\n" ++ line ++
    "\nShipment Summary:\n" ++ line ++ "\nRoute: " ++ truthyOr (ed.fields .origin) "Origin" ++
    " → " ++ truthyOr (ed.fields .destination) "Destination" ++ "\nWeight: " ++
    truthyOr (ed.fields .weight) "Not specified" ++ "\nService: " ++
    truthyOr (ed.fields .serviceLevel) "Standard" ++ "\n" ++
    (match ed.fields .specialRequirements with
      | some s => if s = "" then "" else "Special: " ++ s
      | none => "") ++ "\n" ++
    (if priorInvoices.length > 0 then
       "Invoices: " ++ toString priorInvoices.length ++ " uploaded" else "") ++
    "\n\nWould you like to book one of these carriers?"
  | _ => ""

/-- One invoke of the conversation turn function `shippingAgentNode`:

1. empty log: return the fixed greeting, phase `route_collection`,
   `completed = false` (the spread keeps every other field, `quote`
   included);
2. last message from the assistant: return the state with `output` set to
   that content and `completed = false` (idempotent-replay branch);
3. otherwise run the generation call (`gen`); a thrown call appends the
   apology;
4. on a response, detect the `READY_FOR_QUOTE` sentinel on the trimmed
   text, strip it from the display text, merge the extraction outcome, and
   either generate a quote (sentinel set and origin, destination, cargo
   all truthy) with `completed = true`, or append the conversational reply
   with a recomputed phase and `completed = false`. -/
def shippingAgentNode (now : ℕ) (gen : Except Unit String) (ext : ExtractOutcome)
    (state : AgentState) : AgentState :=
  match state.messages.getLast? with
  | none =>
    { state with
      messages := [⟨.assistant, greetingContent, now⟩]
      output := some greetingContent
      currentPhase := "route_collection"
      completed := false }
  | some lastMessage =>
    if lastMessage.role = .assistant then
      { state with output := some lastMessage.content, completed := false }
    else
      match gen with
      | .error _ =>
        { state with
          messages := state.messages ++ [⟨.assistant, apologyContent, now⟩]
          output := some apologyContent
          completed := false }
      | .ok responseText =>
        let shouldGenerateQuote := responseText.trim.startsWith "READY_FOR_QUOTE"
        let assistantResponse :=
          if shouldGenerateQuote then stripReadyMarker responseText else responseText
        let extractedData := mergeExtraction state.shipmentData ext
        if shouldGenerateQuote && truthyStr (extractedData.fields .origin) &&
            truthyStr (extractedData.fields .destination) &&
            truthyStr (extractedData.fields .cargo) then
          let quote := generateShippingQuote extractedData now
          let quoteMessage :=
            renderQuoteMessage assistantResponse quote extractedData state.shipmentData.invoices
          { state with
            messages := state.messages ++ [⟨.assistant, quoteMessage, now⟩]
            shipmentData := extractedData
            quote := some quote
            output := some quoteMessage
            currentPhase := "quote_generated"
            completed := true }
        else
          { state with
            messages := state.messages ++ [⟨.assistant, assistantResponse, now⟩]
            shipmentData := extractedData
            output := some assistantResponse
            currentPhase := determinePhase extractedData
            completed := false }

/-- The user-message append performed by the `/agent/shipping/message`
endpoint before re-invoking the agent on a stored session. -/
def pushUserMessage (state : AgentState) (content : String) (now : ℕ) : AgentState :=
  { state with messages := state.messages ++ [⟨.user, content, now⟩] }

/-- The initial session state built by `/agent/shipping/start`. -/
def initialState (userId threadId : String) : AgentState :=
  { messages := []
    userId := some userId
    threadId := some threadId
    shipmentData := { fields := fun _ => none, invoices := [] }
    currentPhase := "greeting"
    completed := false
    quote := none
    output := none
    nextAction := none }

/-! ### The worker stage prefixes (src/test-redis.js)

Only the part of each worker body up to the external classification call is
relevant to the claims about pre-classification rejection.  Each model
returns the content handed to the classification call, or `none` when the
worker throws before reaching it. -/

/-- `docs.map(d => d.pageContent).join('\n')` in the PDF worker. -/
def pdfJoinPages (pages : List String) : String := String.intercalate "\n" pages

/-- The content on which the PDF (document) worker invokes
`analyzeDocumentWithAI`, given whether the referenced file exists and the
extracted page texts; `none` means the worker throws before the
classification stage.  The source performs no emptiness or minimum-length
check on the joined text. -/
def pdfClassificationInput (fileExists : Bool) (pages : List String) : Option String :=
  if fileExists then some (pdfJoinPages pages) else none

/-- The content on which the invoice worker invokes `analyzeInvoiceWithAI`:
the worker throws when the file is missing, when the PDF has no pages, or
when the joined text (pages joined by `'\n\n'`) is shorter than 50
characters. -/
def invoiceClassificationInput (fileExists : Bool) (pages : List String) : Option String :=
  if fileExists then
    if pages = [] then none
    else
      let fullContent := String.intercalate "\n\n" pages
      if fullContent.length < 50 then none else some fullContent
  else none

/-! ### The queue retry policy -/

/-- The retry-relevant options configured for a worker's queue in the
source: maximum attempts and initial backoff delay. -/
structure RetryPolicy where
  attempts : ℕ
  backoffDelayMs : ℕ
deriving DecidableEq, Repr

/-- The document (PDF) queue policy: `attempts: 3`, exponential backoff
from 2000 ms. -/
def pdfJobPolicy : RetryPolicy := ⟨3, 2000⟩

/-- The invoice queue policy: `attempts: 2`, exponential backoff from
3000 ms. -/
def invoiceJobPolicy : RetryPolicy := ⟨2, 3000⟩

/-- A terminal job status. -/
inductive JobStatus
  | completed | failed
deriving DecidableEq, Repr

/-- The terminal record of a job: its final status and how many attempts
were made. -/
structure JobResult where
  status : JobStatus
  attempts : ℕ
deriving DecidableEq, Repr

/-- Modelled from the spec: the retry loop of the queue library (BullMQ,
external to this repository).  `remaining` attempts are available and
`made` have been made; each attempt either succeeds (terminal `completed`)
or fails, and a failure with no remaining attempts is terminal `failed`.
The spec: a fixed maximum number of attempts per queue, after which the
job is terminally failed. -/
def runJobAux (succeeds : ℕ → Bool) : ℕ → ℕ → JobResult
  | 0, made => ⟨.failed, made⟩
  | remaining + 1, made =>
    if succeeds made then ⟨.completed, made + 1⟩
    else runJobAux succeeds remaining (made + 1)

/-- Modelled from the spec: run a job under a retry policy, where
`succeeds k` tells whether the (k+1)-st attempt succeeds. -/
def runJob (policy : RetryPolicy) (succeeds : ℕ → Bool) : JobResult :=
  runJobAux succeeds policy.attempts 0

/-! ### Concrete inputs used by the claims -/

/-- The shipment data of the spec's concrete quote example. -/
def mumbaiSD : ShipmentData :=
  { fields := fun k => match k with
      | .origin => some "Mumbai, India"
      | .destination => some "New York, USA"
      | .cargo => some "50kg electronics"
      | .weight => some "50kg"
      | .serviceLevel => some "Standard"
      | _ => none
    invoices := [] }

/-- A shipment data whose declared value is the single comma `","`: the
`/[\d,]+/` token is found but `parseInt` of the comma-stripped token is
`parseInt("")`, i.e. NaN. -/
def commaSD : ShipmentData :=
  { fields := fun k => match k with
      | .declaredValue => some ","
      | _ => none
    invoices := [] }

/-- The extraction record of the reachability chain below. -/
def chainDelta : ShipField → Option String := fun k =>
  match k with
  | .origin => some "Mumbai, India"
  | .destination => some "New York, USA"
  | .cargo => some "50kg electronics"
  | .weight => some "50kg"
  | .serviceLevel => some "Standard"
  | _ => none

/-- A reachability chain through the engine: the start state of a fresh
thread. -/
def chainState0 : AgentState := initialState "user_1" "thread_1"

/-- After the first invoke: the greeting turn. -/
def chainState1 : AgentState := shippingAgentNode 1 (Except.ok "hi") ExtractOutcome.fail chainState0

/-- After the message endpoint appends the user's shipment request. -/
def chainState2 : AgentState :=
  pushUserMessage chainState1 "Ship 50kg electronics from Mumbai, India to New York, USA, Standard service" 2

/-- After the quote-generating invoke: the generation oracle signals the
sentinel and the extraction oracle returns the full field record, so this
state has `completed = true` and a non-null `quote`, and its last message
has role `assistant`. -/
def chainState3 : AgentState :=
  shippingAgentNode 3 (Except.ok "READY_FOR_QUOTE Great, here are your quotes!")
    (ExtractOutcome.parsed chainDelta) chainState2

/-- An input state for the extraction-failure scenario: the minimum quote
fields are already stored and the last message is from the user. -/
def extractFailState : AgentState :=
  { messages := [⟨Role.user, "Please quote my shipment now", 0⟩]
    userId := some "user_2"
    threadId := some "thread_2"
    shipmentData :=
      { fields := fun k => match k with
          | .origin => some "Berlin, Germany"
          | .destination => some "Tokyo, Japan"
          | .cargo => some "20kg machine parts"
          | _ => none
        invoices := [] }
    currentPhase := "ready_for_quote"
    completed := false
    quote := none
    output := none
    nextAction := none }

/-! ### Derived observation helpers used in the theorem statements -/

/-- Strict `<` between two JavaScript numbers with NaN (`none`): any
comparison involving NaN is false. -/
def jsLtB : Option ℚ → Option ℚ → Bool
  | some x, some y => decide (x < y)
  | _, _ => false

/-- Non-strict `<=` between two JavaScript numbers with NaN: any
comparison involving NaN is false. -/
def jsNumLeB : Option ℚ → Option ℚ → Bool
  | some x, some y => decide (x ≤ y)
  | _, _ => false

/-- Are adjacent elements of a rate list strictly increasing? -/
def strictlyAscendingB : List (Option ℚ) → Bool
  | a :: b :: t => jsLtB a b && strictlyAscendingB (b :: t)
  | _ => true

/-- A carrier offer without its timestamp-derived field
(`estimatedDelivery`). -/
structure OfferCore where
  carrierId : String
  name : String
  service : String
  rate : Option ℚ
  minDays : ℕ
  maxDays : ℕ
  transitTime : String
  reputation : ℚ
  reliability : String
  currency : String
deriving DecidableEq, Repr

/-- Forget the timestamp-derived field of an offer. -/
def stripOffer (o : CarrierOffer) : OfferCore :=
  ⟨o.carrierId, o.name, o.service, o.rate, o.minDays, o.maxDays, o.transitTime,
   o.reputation, o.reliability, o.currency⟩

/-- A quote result without its timestamp-derived fields (`validUntil` and
each offer's `estimatedDelivery`). -/
structure QuoteCore where
  quotes : List OfferCore
  recommendedQuote : Option OfferCore
  totalEstimate : Option ℚ
  currency : String
  shipmentDetails : ShipmentDetails
deriving DecidableEq, Repr

/-- Forget the timestamp-derived fields of a quote result. -/
def stripQuote (q : QuoteResult) : QuoteCore :=
  ⟨q.quotes.map stripOffer, q.recommendedQuote.map stripOffer, q.totalEstimate,
   q.currency, q.shipmentDetails⟩

/-! ### Helper lemmas about the quote engine -/

/-- Every route type maps to a base route rate of at least 120. -/
lemma routesTable_ge (s : String) : 120 ≤ routesTable s := by
  unfold routesTable
  split_ifs <;> norm_num

/-- The service multiplier is always positive. -/
lemma quoteService_mult_pos (sd : ShipmentData) : 0 < (quoteService sd).multiplier := by
  unfold quoteService getServiceMultiplier
  split <;> norm_num

/-- The base rate under a numeric declared value. -/
lemma quoteBaseRate_eq (sd : ShipmentData) (v : ℕ) (hv : quoteValue sd = some v) :
    quoteBaseRate sd =
      some (routesTable (quoteRouteType sd) + ((quoteWeight sd + 9) / 10) * 18 +
        ((v + 999) / 1000) * 5) := by
  unfold quoteBaseRate calculateBaseRate
  rw [hv]
  rfl

/-- The declared value NaN case propagates to a NaN base rate. -/
lemma quoteBaseRate_nan (sd : ShipmentData) (hv : quoteValue sd = none) :
    quoteBaseRate sd = none := by
  unfold quoteBaseRate calculateBaseRate
  rw [hv]
  rfl

/-- An `addCost` step preserves being a non-negative number when the
surcharge is one. -/
lemma addCost_pres {cur surcharge : Option ℚ} (cond : Bool)
    (hc : ∃ x, cur = some x ∧ 0 ≤ x) (hs : ∃ y, surcharge = some y ∧ 0 ≤ y) :
    ∃ z, addCost cond cur surcharge = some z ∧ 0 ≤ z := by
  obtain ⟨x, hx, hx0⟩ := hc
  obtain ⟨y, hy, hy0⟩ := hs
  cases cond with
  | false => exact ⟨x, by simp [addCost, hx], hx0⟩
  | true => exact ⟨x + y, by simp [addCost, jsAdd, hx, hy], by linarith⟩

/-- Under a numeric declared value the additional cost is a non-negative
number. -/
lemma quoteAdditional_nonneg (sd : ShipmentData) (v : ℕ) (hv : quoteValue sd = some v) :
    ∃ a : ℚ, quoteAdditional sd = some a ∧ 0 ≤ a := by
  have hmax : (0 : ℚ) ≤ max 60 ((v : ℚ) * (8 / 1000)) :=
    le_trans (by norm_num) (le_max_left _ _)
  unfold quoteAdditional calculateAdditionalCosts
  rw [hv]
  cases hr : sd.fields ShipField.specialRequirements with
  | none => exact ⟨0, rfl, le_refl 0⟩
  | some s =>
    dsimp only
    by_cases hs : s = ""
    · rw [if_pos hs]
      exact ⟨0, rfl, le_refl 0⟩
    · rw [if_neg hs]
      exact addCost_pres _
        (addCost_pres _
          (addCost_pres _
            (addCost_pres _
              (addCost_pres _
                (addCost_pres _ ⟨0, rfl, le_refl 0⟩ ⟨_, rfl, hmax⟩)
                ⟨35, rfl, by norm_num⟩)
              ⟨150, rfl, by norm_num⟩)
            ⟨95, rfl, by norm_num⟩)
          ⟨55, rfl, by norm_num⟩)
        ⟨75, rfl, by norm_num⟩

/-- The pre-sort offer list written out. -/
lemma quoteOffers_eq (sd : ShipmentData) (now : ℕ) :
    quoteOffers sd now =
      [mkOffer sd now 0 dhlInfo, mkOffer sd now 1 fedexInfo, mkOffer sd now 2 upsInfo] := rfl

/-- The rate field of a built offer. -/
lemma mkOffer_rate (sd : ShipmentData) (now i : ℕ) (c : CarrierInfo) :
    (mkOffer sd now i c).rate = offerRate sd i := rfl

/-- Under a numeric declared value, every offer rate is the closed-form
number built from a base rate of at least 120, the positive service
multiplier, the per-index variation and a non-negative surcharge. -/
lemma offerRate_some (sd : ShipmentData) (v : ℕ) (hv : quoteValue sd = some v) :
    ∃ (b : ℕ) (a : ℚ), quoteBaseRate sd = some b ∧ 120 ≤ b ∧ quoteAdditional sd = some a ∧
      0 ≤ a ∧ ∀ i : ℕ, offerRate sd i =
        some ((b : ℚ) * (quoteService sd).multiplier * ((88 + 8 * (i : ℚ)) / 100) + a) := by
  obtain ⟨a, ha, ha0⟩ := quoteAdditional_nonneg sd v hv
  refine ⟨routesTable (quoteRouteType sd) + ((quoteWeight sd + 9) / 10) * 18 +
    ((v + 999) / 1000) * 5, a, quoteBaseRate_eq sd v hv, ?_, ha, ha0, ?_⟩
  · have := routesTable_ge (quoteRouteType sd)
    omega
  · intro i
    unfold offerRate
    rw [quoteBaseRate_eq sd v hv, ha]

/-- The sort comparator never orders an earlier-index offer after a
later-index one: for indices `i ≤ j` the compare value is non-positive,
both in the numeric case (rates weakly increase with the index) and in the
NaN case (compare value 0). -/
lemma jsSortCompare_mkOffer_le (sd : ShipmentData) (now i j : ℕ) (c c' : CarrierInfo)
    (hij : i ≤ j) : jsSortCompare (mkOffer sd now i c) (mkOffer sd now j c') ≤ 0 := by
  unfold jsSortCompare
  rw [mkOffer_rate, mkOffer_rate]
  unfold offerRate
  cases hb : quoteBaseRate sd with
  | none => simp
  | some b =>
    cases ha : quoteAdditional sd with
    | none => simp
    | some a =>
      dsimp only
      have hm : 0 < (quoteService sd).multiplier := quoteService_mult_pos sd
      have hbm : 0 ≤ (b : ℚ) * (quoteService sd).multiplier :=
        mul_nonneg (Nat.cast_nonneg b) hm.le
      have hij' : (i : ℚ) ≤ (j : ℚ) := by exact_mod_cast hij
      have hvar : (88 + 8 * (i : ℚ)) / 100 ≤ (88 + 8 * (j : ℚ)) / 100 := by linarith
      have := mul_le_mul_of_nonneg_left hvar hbm
      linarith

/-- The ascending by-rate sort leaves the offer list unchanged: the
pre-sort rates already weakly increase with the carrier index (and the NaN
comparator case is treated as equality). -/
lemma sortOffers_noop (sd : ShipmentData) (now : ℕ) :
    sortOffers (quoteOffers sd now) = quoteOffers sd now := by
  have h01 := jsSortCompare_mkOffer_le sd now 0 1 dhlInfo fedexInfo (by norm_num)
  have h12 := jsSortCompare_mkOffer_le sd now 1 2 fedexInfo upsInfo (by norm_num)
  rw [quoteOffers_eq]
  unfold sortOffers
  simp [List.insertionSort, List.orderedInsert, h01, h12]

/-- Under a numeric declared value the three pre-sort rates strictly
increase with the carrier index. -/
lemma rates_ascending (sd : ShipmentData) (now : ℕ) (v : ℕ) (hv : quoteValue sd = some v) :
    strictlyAscendingB ((quoteOffers sd now).map fun o => o.rate) = true := by
  obtain ⟨b, a, hb, hb120, ha, ha0, hr⟩ := offerRate_some sd v hv
  rw [quoteOffers_eq]
  simp only [List.map_cons, List.map_nil, mkOffer_rate]
  rw [hr 0, hr 1, hr 2]
  have hm := quoteService_mult_pos sd
  have hbp : (0 : ℚ) < b := by
    have : 0 < b := by omega
    exact_mod_cast this
  have hbm : 0 < (b : ℚ) * (quoteService sd).multiplier := mul_pos hbp hm
  simp only [strictlyAscendingB, jsLtB, Bool.and_eq_true, decide_eq_true_eq, and_true]
  refine ⟨?_, ?_⟩
  · push_cast
    nlinarith
  · push_cast
    nlinarith

/-- Rational ceiling of a natural division matches the `(w + d - 1) / d`
natural-number formula. -/
lemma ceil_natCast_div (w d : ℕ) (hd : 0 < d) :
    ⌈(w : ℚ) / (d : ℚ)⌉ = (((w + d - 1) / d : ℕ) : ℤ) := by
  have hq := Nat.div_add_mod (w + d - 1) d
  have hrlt : (w + d - 1) % d < d := Nat.mod_lt _ hd
  set q := (w + d - 1) / d with hqdef
  have h1 : w ≤ d * q := by omega
  have h2 : d * q < w + d := by omega
  have hd' : (0 : ℚ) < d := by exact_mod_cast hd
  rw [Int.ceil_eq_iff]
  constructor
  · rw [lt_div_iff₀ hd']
    have h2' : (d : ℚ) * q < w + d := by exact_mod_cast h2
    push_cast
    nlinarith
  · rw [div_le_iff₀ hd']
    have h1' : (w : ℚ) ≤ d * q := by exact_mod_cast h1
    push_cast
    nlinarith

/-! ### The claims -/

/-- Claim C3 (confirmed): the field merge applied after extraction is
monotonic.  For every stored record, extraction record and field: a value
present and non-empty in the extraction record overwrites the stored
field; an absent, null or empty value leaves the stored field unchanged;
and a stored field that is truthy (set and non-empty) stays truthy after
the merge, so a known field is never regressed to unknown. -/
theorem c3_merge_monotonic (cur delta : ShipField → Option String) (k : ShipField) :
    (∀ s : String, delta k = some s → s ≠ "" → mergeFields cur delta k = some s) ∧
    ((delta k = none ∨ delta k = some "") → mergeFields cur delta k = cur k) ∧
    (truthyStr (cur k) = true → truthyStr (mergeFields cur delta k) = true) := by
  refine ⟨?_, ?_, ?_⟩
  · intro s hs hne
    simp [mergeFields, mergeField, hs, hne]
  · rintro (h | h) <;> simp [mergeFields, mergeField, h]
  · intro h
    unfold mergeFields mergeField
    cases hd : delta k with
    | none => exact h
    | some s =>
      by_cases hs : s = ""
      · simpa [hs] using h
      · simp [hs, truthyStr]

/-- Witness for C3 at a concrete input: merging the record that sets
`origin` to `"Paris, France"` over a record storing `"Lyon, France"`
overwrites the field. -/
theorem c3_merge_monotonic_witness :
    mergeFields (fun _ => some "Lyon, France") (fun _ => some "Paris, France")
      ShipField.origin = some "Paris, France" :=
  (c3_merge_monotonic (fun _ => some "Lyon, France") (fun _ => some "Paris, France")
    ShipField.origin).1 "Paris, France" rfl (by decide)

/-- Counterexample to claim C4 as stated: on the spec's concrete input the
three offers' transit-time ranges do not all start at 4 days - only the
first does, the per-index `+1`-day offset making the ranges start at 4, 5
and 6 days, so `o.minDays = 4` decides to true, false, false across the
offers. -/
theorem c4_counterexample :
    ((generateShippingQuote mumbaiSD 0).quotes.map fun o => decide (o.minDays = 4)) =
      [true, false, false] := by
  with_unfolding_all rfl

/-- Claim C4 (corrected): on the input `origin = "Mumbai, India"`,
`destination = "New York, USA"`, `cargo = "50kg electronics"`,
`weight = "50kg"`, `serviceLevel = "Standard"` the quote deterministically
has exactly 3 offers; their rates are 506, 552 and 598 dollars, strictly
ascending; the offer at sorted position `i` has a transit range starting
at `4 + i` days (so the recommended offer starts at 4 days, not every
offer); and the recommended quote's rate 506 is the minimum of the three
rates. -/
theorem c4_concrete_quote :
    (generateShippingQuote mumbaiSD 0).quotes.length = 3 ∧
    ((generateShippingQuote mumbaiSD 0).quotes.map fun o => o.rate) =
      [some 506, some 552, some 598] ∧
    strictlyAscendingB ((generateShippingQuote mumbaiSD 0).quotes.map fun o => o.rate) = true ∧
    ((generateShippingQuote mumbaiSD 0).quotes.map fun o => o.minDays) = [4, 5, 6] ∧
    ((generateShippingQuote mumbaiSD 0).recommendedQuote.map fun o => o.rate) =
      some (some 506) ∧
    (∀ o ∈ (generateShippingQuote mumbaiSD 0).quotes, jsNumLeB (some 506) o.rate = true) := by
  with_unfolding_all decide

/-- Claim C5 (confirmed): the quote engine is referentially transparent.
For one and the same shipment data, two invocations at different clock
instants agree on every output component except the timestamp-derived
fields (`validUntil` and each offer's `estimatedDelivery`), which
`stripQuote` removes. -/
theorem c5_referential_transparency (sd : ShipmentData) (n1 n2 : ℕ) :
    stripQuote (generateShippingQuote sd n1) = stripQuote (generateShippingQuote sd n2) := by
  unfold stripQuote generateShippingQuote
  simp only [sortOffers_noop]
  simp only [quoteOffers_eq]
  rfl

/-- The empty shipment data: no field collected yet. -/
def emptySD : ShipmentData := { fields := fun _ => none, invoices := [] }

/-- Claim C6 (confirmed): the quote function is total (it always returns a
three-offer quote, never an error); a missing weight token defaults the
weight to 50 and a missing declared-value token defaults the value to
1000; and under a numeric declared value the base rate is exactly
`routeTable[routeType] + ceil(weight/10)*18 + ceil(value/1000)*5` with the
route table 120/280/480.  A declared-value token with no digit parses to
NaN and propagates to a NaN base rate. -/
theorem c6_parse_defaults_and_base_rate (sd : ShipmentData) (now : ℕ) :
    (scanWeight (quoteWeightText sd) = none → quoteWeight sd = 50) ∧
    (scanValue (quoteValueText sd) = none → quoteValue sd = some 1000) ∧
    (generateShippingQuote sd now).quotes.length = 3 ∧
    (∀ v : ℕ, quoteValue sd = some v →
      ∃ b : ℕ, quoteBaseRate sd = some b ∧
        (b : ℤ) = routesTable (quoteRouteType sd) + ⌈(quoteWeight sd : ℚ) / 10⌉ * 18 +
          ⌈(v : ℚ) / 1000⌉ * 5) ∧
    (quoteValue sd = none → quoteBaseRate sd = none) := by
  refine ⟨?_, ?_, ?_, ?_, quoteBaseRate_nan sd⟩
  · intro h
    unfold quoteWeight
    rw [h]
    rfl
  · intro h
    unfold quoteValue
    rw [h]
  · have h1 : (generateShippingQuote sd now).quotes = sortOffers (quoteOffers sd now) := rfl
    rw [h1, sortOffers_noop, quoteOffers_eq]
    rfl
  · intro v hv
    refine ⟨_, quoteBaseRate_eq sd v hv, ?_⟩
    have h10 := ceil_natCast_div (quoteWeight sd) 10 (by norm_num)
    have h1000 := ceil_natCast_div v 1000 (by norm_num)
    have e1 : quoteWeight sd + 10 - 1 = quoteWeight sd + 9 := by omega
    have e2 : v + 1000 - 1 = v + 999 := by omega
    rw [e1] at h10
    rw [e2] at h1000
    push_cast at h10 h1000 ⊢
    rw [h10, h1000]

/-- Witness for C6 at the empty shipment data: no weight token and no
declared-value token, so the defaults 50 and 1000 apply. -/
theorem c6_parse_defaults_witness :
    quoteWeight emptySD = 50 ∧ quoteValue emptySD = some 1000 :=
  ⟨(c6_parse_defaults_and_base_rate emptySD 0).1 rfl,
   (c6_parse_defaults_and_base_rate emptySD 0).2.1 rfl⟩

/-- Counterexample to claim C8 as stated: a document (PDF) job whose
loaded pages yield empty extracted text is not rejected - the worker hands
the empty content straight to the external classification call. -/
theorem c8_counterexample :
    pdfClassificationInput true [""] = some "" ∧
    pdfClassificationInput true [""] ≠ none := by
  refine ⟨rfl, ?_⟩
  intro h
  exact Option.noConfusion h

/-- Claim C8 (corrected): only the invoice worker guards the
classification stage - any content it classifies has at least 50
characters - while the document (PDF) worker performs no emptiness or
minimum-length check and always attempts classification on the joined page
text. -/
theorem c8_classification_gate :
    (∀ pages : List String, pdfClassificationInput true pages = some (pdfJoinPages pages)) ∧
    (∀ (pages : List String) (c : String),
      invoiceClassificationInput true pages = some c → 50 ≤ c.length) := by
  constructor
  · intro pages
    rfl
  · intro pages c h
    simp only [invoiceClassificationInput, if_true] at h
    split_ifs at h with hp hl
    have hc := Option.some.inj h
    rw [← hc]
    omega

/-- Witness for C8 on a concrete invoice document of more than 50
characters, which passes the gate. -/
theorem c8_classification_gate_witness :
    50 ≤ (String.intercalate "\n\n"
      ["This commercial invoice covers fifty kilograms of electronic goods."]).length :=
  c8_classification_gate.2
    ["This commercial invoice covers fifty kilograms of electronic goods."]
    (String.intercalate "\n\n"
      ["This commercial invoice covers fifty kilograms of electronic goods."]) rfl

/-- Claim C9 (confirmed, modelled from the spec): under the configured
retry policies - 3 attempts for document jobs, 2 for invoice jobs - a job
that fails on every attempt ends terminally failed with exactly the
ceiling number of attempts, and no run of any job ever exceeds its
policy's attempt ceiling (in particular a document job never makes a 4th
attempt). -/
theorem c9_retry_ceiling :
    (∀ f : ℕ → Bool, (∀ k, f k = false) →
      runJob pdfJobPolicy f = ⟨JobStatus.failed, 3⟩) ∧
    (∀ f : ℕ → Bool, (∀ k, f k = false) →
      runJob invoiceJobPolicy f = ⟨JobStatus.failed, 2⟩) ∧
    (∀ (p : RetryPolicy) (f : ℕ → Bool), (runJob p f).attempts ≤ p.attempts) := by
  have haux : ∀ (f : ℕ → Bool) (remaining made : ℕ),
      (runJobAux f remaining made).attempts ≤ made + remaining := by
    intro f remaining
    induction remaining with
    | zero => intro made; simp [runJobAux]
    | succ n ih =>
      intro made
      unfold runJobAux
      by_cases hf : f made = true
      · simp only [hf, if_true]
        omega
      · simp only [hf, Bool.false_eq_true, if_false]
        have := ih (made + 1)
        omega
  refine ⟨?_, ?_, fun p f => ?_⟩
  · intro f hf
    simp [runJob, pdfJobPolicy, runJobAux, hf 0, hf 1, hf 2]
  · intro f hf
    simp [runJob, invoiceJobPolicy, runJobAux, hf 0, hf 1]
  · have := haux f p.attempts 0
    simpa [runJob] using this

/-- Witness for C9: a job failing on every attempt under the document
policy ends failed after exactly 3 attempts. -/
theorem c9_retry_ceiling_witness :
    runJob pdfJobPolicy (fun _ => false) = ⟨JobStatus.failed, 3⟩ :=
  c9_retry_ceiling.1 (fun _ => false) (fun _ => rfl)

/-- Counterexample to claim C10 as stated: at a shipment whose declared
value is the token `","`, `parseInt` of the comma-stripped token is NaN,
all three pre-sort rates are NaN, and they are not strictly increasing. -/
theorem c10_counterexample :
    ((quoteOffers commaSD 0).map fun o => o.rate) = [none, none, none] ∧
    strictlyAscendingB ((quoteOffers commaSD 0).map fun o => o.rate) = false := by
  with_unfolding_all decide

/-- Claim C10 (corrected): whenever the parsed declared value is a number
(i.e. except for the NaN declared-value tokens), the per-index variation
factor over the positive base rate makes the three pre-sort rates strictly
increasing; and for every input - NaN rates included, since the comparator
then returns 0 everywhere - the ascending sort is a no-op and the
recommended quote is the first listed carrier `dhl_express_001`. -/
theorem c10_rate_ordering (sd : ShipmentData) (now : ℕ) :
    (∀ v : ℕ, quoteValue sd = some v →
      strictlyAscendingB ((quoteOffers sd now).map fun o => o.rate) = true) ∧
    (generateShippingQuote sd now).quotes = quoteOffers sd now ∧
    ((generateShippingQuote sd now).recommendedQuote.map fun o => o.carrierId) =
      some "dhl_express_001" := by
  refine ⟨fun v hv => rates_ascending sd now v hv, ?_, ?_⟩
  · show sortOffers (quoteOffers sd now) = quoteOffers sd now
    exact sortOffers_noop sd now
  · show ((sortOffers (quoteOffers sd now)).head?.map fun o => o.carrierId) =
      some "dhl_express_001"
    rw [sortOffers_noop, quoteOffers_eq]
    rfl

/-- Witness for C10 at the concrete Mumbai input, whose declared value
parses to the default 1000. -/
theorem c10_rate_ordering_witness :
    strictlyAscendingB ((quoteOffers mumbaiSD 5).map fun o => o.rate) = true :=
  (c10_rate_ordering mumbaiSD 5).1 1000 (by with_unfolding_all rfl)

/-- Counterexample to claim C1 as stated: `chainState3` is reachable
through the engine (greeting turn, user message, quote-generating turn)
and invoking the turn function on it returns a state with
`completed = false` while `quote` is still non-null - the completed flag
and the quote field diverge on every turn after the quoting one. -/
theorem c1_counterexample :
    (shippingAgentNode 4 (Except.ok "ok") ExtractOutcome.fail chainState3).completed = false ∧
    (shippingAgentNode 4 (Except.ok "ok") ExtractOutcome.fail chainState3).quote.isSome = true := by
  constructor
  · with_unfolding_all rfl
  · with_unfolding_all rfl

/-- Claim C1 (corrected): only one direction of the claimed equivalence
holds - every state returned by the turn function with `completed = true`
has a non-null `quote` (the quote is set on the same turn that completes),
but a returned state may have a non-null `quote` with `completed = false`,
as every invoke after a completed cycle does. -/
theorem c1_completed_implies_quote (now : ℕ) (gen : Except Unit String) (ext : ExtractOutcome)
    (s : AgentState) (h : (shippingAgentNode now gen ext s).completed = true) :
    (shippingAgentNode now gen ext s).quote.isSome = true := by
  revert h
  unfold shippingAgentNode
  split
  · intro h
    simp at h
  · split
    · intro h
      simp at h
    · split
      · intro h
        simp at h
      · dsimp only
        split
        · intro _
          rfl
        · intro h
          simp at h

/-- Witness for C1: the quote-generating turn on `chainState2` returns
`completed = true`, and the theorem yields a non-null quote there. -/
theorem c1_completed_implies_quote_witness :
    (shippingAgentNode 3 (Except.ok "READY_FOR_QUOTE Great, here are your quotes!")
      (ExtractOutcome.parsed chainDelta) chainState2).quote.isSome = true :=
  c1_completed_implies_quote 3 (Except.ok "READY_FOR_QUOTE Great, here are your quotes!")
    (ExtractOutcome.parsed chainDelta) chainState2 (by with_unfolding_all rfl)

/-- Counterexample to claim C2 as stated: `chainState3` has a most recent
message with role `assistant`, but re-invoking the turn function on it
does not return a state identical to the input - the returned state's
`completed` flag (false) differs from the input's (true), so the Boolean
comparison of the two flags is false. -/
theorem c2_counterexample :
    ((shippingAgentNode 9 (Except.ok "later") ExtractOutcome.fail chainState3).completed ==
      chainState3.completed) = false := by
  with_unfolding_all rfl

/-- Claim C2 (corrected): when the most recent stored message has role
`assistant`, the turn function performs no extraction and returns the
input state with exactly two fields overwritten - `output` becomes that
message's content and `completed` becomes `false`.  The result is
identical to the input only when the input already had that output and
`completed = false`. -/
theorem c2_replay (now : ℕ) (gen : Except Unit String) (ext : ExtractOutcome) (s : AgentState)
    (m : Message) (hm : s.messages.getLast? = some m) (hr : m.role = Role.assistant) :
    shippingAgentNode now gen ext s =
      { s with output := some m.content, completed := false } := by
  unfold shippingAgentNode
  rw [hm]
  dsimp only
  rw [if_pos hr]

/-- The concrete replay state used by the C2 witness. -/
def replayState : AgentState :=
  { messages := [⟨Role.assistant, "Hello again", 1⟩]
    userId := some "user_3"
    threadId := some "thread_3"
    shipmentData := emptySD
    currentPhase := "route_collection"
    completed := false
    quote := none
    output := some "Hello again"
    nextAction := none }

/-- Witness for C2 at a concrete replay state. -/
theorem c2_replay_witness :
    shippingAgentNode 2 (Except.ok "g") ExtractOutcome.fail replayState =
      { replayState with output := some "Hello again", completed := false } :=
  c2_replay 2 (Except.ok "g") ExtractOutcome.fail replayState
    ⟨Role.assistant, "Hello again", 1⟩ rfl rfl

/-- Counterexample to claim C7 as stated: on `extractFailState` (minimum
quote fields stored, last message from the user) a failing extraction call
does not yield an apology turn with `completed = false` - the generation
call succeeded with the ready sentinel, so the turn still generates a
quote and returns `completed = true` (with the stored data unchanged). -/
theorem c7_counterexample :
    (shippingAgentNode 0 (Except.ok "READY_FOR_QUOTE sure") ExtractOutcome.fail
      extractFailState).completed = true ∧
    (shippingAgentNode 0 (Except.ok "READY_FOR_QUOTE sure") ExtractOutcome.fail
      extractFailState).shipmentData = extractFailState.shipmentData := by
  constructor
  · with_unfolding_all rfl
  · with_unfolding_all rfl

/-- Claim C7 (corrected): the two failure modes behave differently.  When
the generation call throws, the turn appends the generic apology, returns
`completed = false` and leaves `shipmentData` (and `quote`) unchanged.
When only the extraction call fails, the turn falls back to an empty delta
- `shipmentData` is returned unchanged - but continues normally: no
apology is appended and the turn may even complete with a quote. -/
theorem c7_failure_semantics :
    (∀ (now : ℕ) (ext : ExtractOutcome) (s : AgentState) (m : Message),
      s.messages.getLast? = some m → m.role ≠ Role.assistant →
      shippingAgentNode now (Except.error ()) ext s =
        { s with
          messages := s.messages ++ [⟨Role.assistant, apologyContent, now⟩]
          output := some apologyContent
          completed := false }) ∧
    (∀ (now : ℕ) (t : String) (s : AgentState),
      (shippingAgentNode now (Except.ok t) ExtractOutcome.fail s).shipmentData =
        s.shipmentData) := by
  constructor
  · intro now ext s m hm hr
    unfold shippingAgentNode
    rw [hm]
    dsimp only
    rw [if_neg hr]
  · intro now t s
    unfold shippingAgentNode
    split
    · rfl
    · split
      · rfl
      · dsimp only
        rw [apply_ite AgentState.shipmentData]
        dsimp only
        rw [ite_self]
        rfl

/-- The concrete generation-failure state used by the C7 witness. -/
def genFailState : AgentState :=
  { messages := [⟨Role.user, "hello", 0⟩]
    userId := some "user_4"
    threadId := some "thread_4"
    shipmentData := emptySD
    currentPhase := "greeting"
    completed := false
    quote := none
    output := none
    nextAction := none }

/-- Witness for C7: a thrown generation call on a concrete user-turn state
appends the apology and completes nothing. -/
theorem c7_failure_semantics_witness :
    shippingAgentNode 1 (Except.error ()) ExtractOutcome.fail genFailState =
      { genFailState with
        messages := genFailState.messages ++ [⟨Role.assistant, apologyContent, 1⟩]
        output := some apologyContent
        completed := false } :=
  c7_failure_semantics.1 1 ExtractOutcome.fail genFailState ⟨Role.user, "hello", 0⟩ rfl
    (by decide)
